import Mathlib

/-!
Verification development for the music_butler repository.

The code modelled here is the orchestrator and its helpers:
  - qr/scanner.py         (QRScanner.is_valid_spotify_uri)
  - core/butler.py        (MusicButler.run scan step, play_content,
                           print_current_content, print_sticker,
                           set_volume and the volume key/encoder handlers)
  - spotify/client.py     (SpotifyClient.get_active_device, get_content_info)
  - hardware/encoder.py   (RotaryEncoderHandler button handling)
  - config/settings.py    (constants)
The monolithic music_butler.py contains the same logic for the scan step,
the encoder loop, set_volume and print_current_content; the modular files
are the ones embedded, and any difference is noted where relevant.

Python strings are modelled as lists of characters, time stamps as
rationals, and remote-API calls as explicit parameters carrying the value
the call would have produced (with none for the exception path).  Console
output is not modelled; the messages printed by the source only mirror the
returned values that are modelled.
-/

/-- Characters of a Python string. -/
abbrev Str := List Char

/-- Python truthiness of an optional string: None and the empty string are
falsy, every other string is truthy. -/
def truthy (o : Option Str) : Bool :=
  match o with
  | none => false
  | some s => !s.isEmpty

/-- Python `s.startswith(p)` on character lists. -/
def startswith : Str → Str → Bool
  | _, [] => true
  | [], _ :: _ => false
  | c :: s, p :: ps => c == p && startswith s ps

/-- The literal Spotify playlist URI leader from qr/scanner.py line 95. -/
def playlistPre : Str := "spotify:playlist:".toList

/-- The literal Spotify album URI leader from qr/scanner.py line 95. -/
def albumPre : Str := "spotify:album:".toList

/-- The literal Spotify track URI leader from qr/scanner.py line 95. -/
def trackPre : Str := "spotify:track:".toList

/-- QRScanner.is_valid_spotify_uri (qr/scanner.py lines 84 to 95): a
startswith test against the tuple of the three literal leaders. -/
def is_valid_spotify_uri (qr_data : Str) : Bool :=
  startswith qr_data playlistPre || startswith qr_data albumPre ||
    startswith qr_data trackPre

/-- SCAN_COOLDOWN from config/settings.py line 71 (seconds). -/
def SCAN_COOLDOWN : ℚ := 3

/-- DEFAULT_VOLUME from config/settings.py line 72. -/
def DEFAULT_VOLUME : Int := 70

/-- VOLUME_STEP from config/settings.py line 81. -/
def VOLUME_STEP : Int := 2

/-- DOUBLE_PRESS_TIMEOUT from config/settings.py line 80 (0.5 seconds). -/
def DOUBLE_PRESS_TIMEOUT : ℚ := 1 / 2

/-- The scanner-state fields of MusicButler (core/butler.py lines 55 to 59):
last_qr_code starts as None, last_scan_time as 0, scan_cooldown as
SCAN_COOLDOWN, print_mode as False.  Time stamps are modelled as rationals. -/
structure ScannerState where
  last_qr_code : Option Str
  last_scan_time : ℚ
  scan_cooldown : ℚ
  print_mode : Bool
deriving DecidableEq

/-- The dispatch performed for a validated URI in MusicButler.run
(core/butler.py lines 373 to 379): print_sticker in print mode,
play_content in play mode. -/
inductive ScanAction where
  | printSticker (uri : Str)
  | playContent (uri : Str)
deriving DecidableEq

/-- One iteration of the QR-processing block of MusicButler.run
(core/butler.py lines 362 to 408; identically music_butler.py lines 1297
to 1346).  `qr_data` is the decoded payload (None when no code was seen;
the Python guard `if qr_data` is also false for an empty payload), and
`current_time` is the value of time.time().  The returned action is the
dispatch the iteration performs, if any; console output is not modelled. -/
def scan_step (st : ScannerState) (qr_data : Option Str) (current_time : ℚ) :
    ScannerState × Option ScanAction :=
  match qr_data with
  | none => (st, none)
  | some q =>
    if q ≠ [] ∧ current_time - st.last_scan_time > st.scan_cooldown then
      if some q ≠ st.last_qr_code then
        if is_valid_spotify_uri q then
          ({ st with last_qr_code := some q, last_scan_time := current_time },
            some (if st.print_mode then ScanAction.printSticker q
              else ScanAction.playContent q))
        else
          ({ st with last_qr_code := some q, last_scan_time := current_time },
            none)
      else
        (st, none)
    else
      (st, none)

/-- The scanner state at process start (core/butler.py lines 56 to 59). -/
def initialScannerState : ScannerState :=
  { last_qr_code := none, last_scan_time := 0, scan_cooldown := SCAN_COOLDOWN,
    print_mode := false }

/-- A concrete valid track URI used in concrete instantiations. -/
def trackX : Str := "spotify:track:X".toList

/-- A concrete valid album URI used in concrete instantiations. -/
def albumA : Str := "spotify:album:A".toList

/-- A concrete scanner state that has just scanned `albumA` at time 0 with
the default cooldown of 3. -/
def stateAfterAlbumA : ScannerState :=
  { last_qr_code := some albumA, last_scan_time := 0, scan_cooldown := 3,
    print_mode := false }

/-- A concrete scanner state that has just scanned `trackX` at time 0 with
the default cooldown of 3. -/
def stateAfterTrackX : ScannerState :=
  { last_qr_code := some trackX, last_scan_time := 0, scan_cooldown := 3,
    print_mode := false }

/-- Python rendering of an optional string inside an f-string: None prints
as the text None. -/
def pyShow (o : Option Str) : Str :=
  match o with
  | none => "None".toList
  | some s => s

/-- The startswith test against the playlist and album leaders used by
print_current_content (core/butler.py lines 237 and 264). -/
def starts_playlist_or_album (s : Str) : Bool :=
  startswith s playlistPre || startswith s albumPre

/-- The slice of the current-track dictionary that print_current_content
reads: the uri of the album entry of the track (core/butler.py line 244).
The album URI is None when the album key or its uri key is missing. -/
structure Track where
  album_uri : Option Str
deriving DecidableEq

/-- The dictionary built by SpotifyClient.get_current_playback
(spotify/client.py lines 259 to 283) when something is playing:
context_uri and context_type are None when there is no context, and track
is the item of the playback, None when absent. -/
structure PlaybackInfo where
  context_uri : Option Str
  context_type : Option Str
  track : Option Track
deriving DecidableEq

/-- The context_source label attached by print_current_content
(core/butler.py lines 239, 247 and 266): the generic current-context text
mentioning the context type, the distinct track-to-album fallback text, or
the last-played-context text. -/
inductive ContextSource where
  | currentContext (context_type : Option Str)
  | trackAlbumNoContext
  | lastPlayedContext
deriving DecidableEq

/-- The observable outcome of MusicButler.print_current_content
(core/butler.py lines 223 to 281): either a sticker print is attempted for
a URI with a context_source label, or the call returns False early because
the current track has no album information, because the live context kind
is unsupported, or because nothing printable is available. -/
inductive PrintOutcome where
  | printed (uri : Str) (source : ContextSource)
  | noAlbumInfo
  | unsupportedContext (context_type : Option Str)
  | nothingPrintable
deriving DecidableEq

/-- The URI that a PrintOutcome hands to the Sticker Printer, if any. -/
def printerTarget (o : PrintOutcome) : Option Str :=
  match o with
  | PrintOutcome.printed uri _ => some uri
  | _ => none

/-- MusicButler.print_current_content (core/butler.py lines 223 to 281;
identically music_butler.py lines 1098 to 1156).  `playback_info` is the
value returned by get_current_playback (None when nothing is playing or
the call raised) and `current_playback_context` is the remembered Playback
Context field.  Returns which print is attempted, or why none is.  The

printer result itself and console output are not modelled. -/
def print_current_content (playback_info : Option PlaybackInfo)
    (current_playback_context : Option Str) : PrintOutcome :=
  let fromLive : Option PrintOutcome :=
    match playback_info with
    | none => none
    | some pi =>
      if truthy pi.context_uri ∧
          starts_playlist_or_album (pi.context_uri.getD []) then
        some (PrintOutcome.printed (pi.context_uri.getD [])
          (ContextSource.currentContext pi.context_type))
      else if pi.track.isSome ∧ ¬ truthy pi.context_uri then
        match pi.track with
        | some tr =>
          if truthy tr.album_uri then
            some (PrintOutcome.printed (tr.album_uri.getD [])
              ContextSource.trackAlbumNoContext)
          else
            some PrintOutcome.noAlbumInfo
        | none => some PrintOutcome.noAlbumInfo
      else if truthy pi.context_uri then
        some (PrintOutcome.unsupportedContext pi.context_type)
      else
        none
  match fromLive with
  | some outcome => outcome
  | none =>
    if truthy current_playback_context ∧
        starts_playlist_or_album (current_playback_context.getD []) then
      PrintOutcome.printed (current_playback_context.getD [])
        ContextSource.lastPlayedContext
    else
      PrintOutcome.nothingPrintable

/-- One entry of the device list returned by the Spotify devices call
(spotify/client.py lines 177 to 184). -/
structure Device where
  id : Str
  is_active : Bool
deriving DecidableEq

/-- SpotifyClient.get_active_device (spotify/client.py lines 174 to 188).
`devices` is the device list of the remote call, None when the call
raised.  Prefers the first active device, otherwise falls back to the
first device; returns None when the list is empty or the call failed. -/
def get_active_device (devices : Option (List Device)) : Option Str :=
  match devices with
  | none => none
  | some [] => none
  | some (d :: ds) =>
    match (d :: ds).find? (fun dev => dev.is_active) with
    | some dev => some dev.id
    | none => some d.id

/-- The Playback Context fields of MusicButler
(core/butler.py lines 117 to 118). -/
structure PlaybackState where
  current_playback_context : Option Str
  is_playing : Bool
deriving DecidableEq

/-- What a call to MusicButler.play_content does: the new Playback Context
fields, the returned bool, and whether the Spotify play call was issued. -/
structure PlayResult where
  state : PlaybackState
  success : Bool
  play_called : Bool
deriving DecidableEq

/-- MusicButler.play_content (core/butler.py lines 164 to 198).
`device_id` is the value of get_active_device, and `play_ok` is the bool
returned by the remote SpotifyClient.play_content call (the Python guard
`if not device_id` is also taken for an empty device id).  On success the
Playback Context is set to the played URI and is_playing to True; on a
missing device the call returns False without issuing the play call. -/
def play_content (st : PlaybackState) (spotify_uri : Str)
    (device_id : Option Str) (play_ok : Bool) : PlayResult :=
  if ¬ truthy device_id then
    { state := st, success := false, play_called := false }
  else if play_ok then
    { state :=
        { current_playback_context := some spotify_uri, is_playing := true },
      success := true, play_called := true }
  else
    { state := st, success := false, play_called := true }

/-- A concrete track dictionary whose album URI is albumA. -/
def trackWithAlbumA : Track := { album_uri := some albumA }

/-- Concrete live playback: a track with no context, album albumA. -/
def playbackTrackNoContext : PlaybackInfo :=
  { context_uri := none, context_type := none, track := some trackWithAlbumA }

/-- Concrete live playback: an artist context. -/
def playbackArtistContext : PlaybackInfo :=
  { context_uri := some "spotify:artist:Z".toList,
    context_type := some "artist".toList, track := some trackWithAlbumA }

/-- The Playback Context right after initialization
(core/butler.py lines 117 to 118). -/
def initialPlaybackState : PlaybackState :=
  { current_playback_context := none, is_playing := false }

/-- A concrete one-element device list with an active device. -/
def oneActiveDevice : List Device := [{ id := "dev1".toList, is_active := true }]

/-- The dictionary returned by SpotifyClient.get_content_info
(spotify/client.py lines 190 to 235).  The owner key is only present for
playlists, the artist key only for albums and tracks; name and type are
always present in the dictionaries the source builds, but are modelled as
optional to match the `info.get` reads in print_sticker. -/
structure ContentInfo where
  type : Option Str
  name : Option Str
  artist : Option Str
  owner : Option Str
  display : Str
deriving DecidableEq

/-- The fallback dictionary of get_content_info
(spotify/client.py lines 231 to 235). -/
def unknown_info : ContentInfo :=
  { type := some "unknown".toList, name := some "Unknown".toList,
    artist := none, owner := none, display := "Unknown content".toList }

/-- SpotifyClient.get_content_info (spotify/client.py lines 190 to 235).
`remote` carries the (name, artist or owner display name) pair the remote
lookup for this URI would return, None when the lookup raises.  A URI
matching none of the three leaders falls through to the unknown
dictionary, as does any raising lookup. -/
def get_content_info (uri : Str) (remote : Option (Str × Str)) : ContentInfo :=
  if startswith uri playlistPre then
    match remote with
    | some (n, o) =>
      { type := some "playlist".toList, name := some n, artist := none,
        owner := some o, display := "Playlist: ".toList ++ n }
    | none => unknown_info
  else if startswith uri albumPre then
    match remote with
    | some (n, a) =>
      { type := some "album".toList, name := some n, artist := some a,
        owner := none, display := "Album: ".toList ++ n ++ " by ".toList ++ a }
    | none => unknown_info
  else if startswith uri trackPre then
    match remote with
    | some (n, a) =>
      { type := some "track".toList, name := some n, artist := some a,
        owner := none, display := "Track: ".toList ++ n ++ " by ".toList ++ a }
    | none => unknown_info
  else
    unknown_info

/-- The title and subtitle computation of MusicButler.print_sticker
(core/butler.py lines 293 to 307).  Note this playlist special case exists
only in core/butler.py; music_butler.py line 1171 always uses the artist
or owner.  The claims cite the core/butler.py version. -/
def derive_title_subtitle (spotify_uri : Str) (info : ContentInfo) :
    Str × Str :=
  let title := info.name.getD "Unknown".toList
  if startswith spotify_uri playlistPre ∨ info.type = some "playlist".toList then
    if title = "Unknown".toList ∧ info.type = some "unknown".toList then
      ("Playlist".toList, [])
    else
      (title, "(Playlist)".toList)
  else
    (title, info.artist.getD (info.owner.getD []))

/-- MusicButler.print_sticker (core/butler.py lines 283 to 309): resolve
the content info for the URI, derive title and subtitle, and hand
(spotify_uri, title, subtitle) to StickerPrinter.print_qr_sticker.  The
returned triple is the render call the Sticker Printer receives. -/
def print_sticker (spotify_uri : Str) (remote : Option (Str × Str)) :
    Str × Str × Str :=
  let info := get_content_info spotify_uri remote
  let ts := derive_title_subtitle spotify_uri info
  (spotify_uri, ts.1, ts.2)

/-- The button-debounce fields of RotaryEncoderHandler
(hardware/encoder.py lines 41 to 42): last_button_state starts False and
last_press_time starts 0. -/
structure EncoderButtonState where
  last_button_state : Bool
  last_press_time : ℚ
deriving DecidableEq

/-- A callback fired by the encoder monitor loop for the button. -/
inductive ButtonEvent where
  | double
  | single
deriving DecidableEq

/-- The button-handling part of one iteration of
RotaryEncoderHandler._monitor_loop (hardware/encoder.py lines 109 to 137;
identically music_butler.py lines 530 to 558).  `button_pressed` is the
debounced hardware read and `current_time` the value of time.time().  On a
press edge, a press within DOUBLE_PRESS_TIMEOUT of the remembered press
time fires the double-press callback and clears the remembered time;
otherwise the press time is remembered.  On a release edge, the
single-press callback fires only when the remembered press time is set
and lies at least DOUBLE_PRESS_TIMEOUT in the past. -/
def button_step (st : EncoderButtonState) (button_pressed : Bool)
    (current_time : ℚ) : EncoderButtonState × Option ButtonEvent :=
  if button_pressed ∧ ¬ st.last_button_state then
    if current_time - st.last_press_time < DOUBLE_PRESS_TIMEOUT then
      ({ last_button_state := button_pressed, last_press_time := 0 },
        some ButtonEvent.double)
    else
      ({ last_button_state := button_pressed, last_press_time := current_time },
        none)
  else if ¬ button_pressed ∧ st.last_button_state then
    if current_time - st.last_press_time ≥ DOUBLE_PRESS_TIMEOUT ∧
        st.last_press_time > 0 then
      ({ last_button_state := button_pressed, last_press_time := 0 },
        some ButtonEvent.single)
    else
      ({ last_button_state := button_pressed,
          last_press_time := st.last_press_time },
        none)
  else
    ({ last_button_state := button_pressed,
        last_press_time := st.last_press_time },
      none)

/-- Iterating button_step over a list of (button read, time) samples,
collecting the fired callbacks in order. -/
def button_run (st : EncoderButtonState) :
    List (Bool × ℚ) → EncoderButtonState × List ButtonEvent
  | [] => (st, [])
  | (b, t) :: rest =>
    let step := button_step st b t
    let next := button_run step.1 rest
    (next.1,
      match step.2 with
      | some e => e :: next.2
      | none => next.2)

/-- The encoder button state when the monitor thread starts
(hardware/encoder.py lines 41 to 42). -/
def initialButtonState : EncoderButtonState :=
  { last_button_state := false, last_press_time := 0 }

/-- The volume-changing operations of MusicButler: a direct set_volume
call, the encoder rotation callback _on_encoder_rotate, and the plus and
minus keyboard handlers of the main loop. -/
inductive VolumeOp where
  | setVolume (volume_percent : Int)
  | encoderRotate (position_change : Int)
  | keyVolumeUp
  | keyVolumeDown
deriving DecidableEq

/-- Effect of one volume operation on the stored current_volume.
setVolume is MusicButler.set_volume (core/butler.py lines 135 to 146),
which clamps to [0, 100] and stores the result.  encoderRotate is
_on_encoder_rotate (core/butler.py lines 148 to 154): the clamped new
volume is stored through set_volume only when it differs from the current
one.  keyVolumeUp and keyVolumeDown are the plus and minus key handlers
(core/butler.py lines 491 to 499), which store a clamped value and then
call set_volume on it.  The amixer subprocess call is not modelled. -/
def apply_volume_op (current_volume : Int) (op : VolumeOp) : Int :=
  match op with
  | VolumeOp.setVolume v => max 0 (min 100 v)
  | VolumeOp.encoderRotate pc =>
    let volume_change := pc * VOLUME_STEP
    let new_volume := max 0 (min 100 (current_volume - volume_change))
    if new_volume ≠ current_volume then max 0 (min 100 new_volume)
    else current_volume
  | VolumeOp.keyVolumeUp =>
    let v := min 100 (current_volume + 5)
    max 0 (min 100 v)
  | VolumeOp.keyVolumeDown =>
    let v := max 0 (current_volume - 5)
    max 0 (min 100 v)

/-- Folding a sequence of volume operations over a starting volume. -/
def run_volume_ops (v : Int) (ops : List VolumeOp) : Int :=
  ops.foldl apply_volume_op v

/-- The stored volume right after initialization (core/butler.py lines 116
and 121): current_volume is set to DEFAULT_VOLUME and then set_volume
clamps and stores it again. -/
def initial_volume : Int := max 0 (min 100 DEFAULT_VOLUME)

/-- Characterization: `startswith s p` holds exactly when `s` is `p`
followed by some tail. -/
theorem startswith_iff (s p : Str) : startswith s p = true ↔ ∃ t, s = p ++ t := by
  induction p generalizing s with
  | nil => simp [startswith]
  | cons x ps ih =>
    cases s with
    | nil => simp [startswith]
    | cons c cs =>
      simp only [startswith, Bool.and_eq_true, beq_iff_eq, ih, List.cons_append,
        List.cons.injEq]
      constructor
      · rintro ⟨rfl, t, rfl⟩; exact ⟨t, rfl, rfl⟩
      · rintro ⟨t, rfl, rfl⟩; exact ⟨rfl, t, rfl⟩

/-- If `p` and `q` disagree at some index then no extension of `p` starts
with `q`. -/
theorem startswith_append_ne (p x q : Str) (i : Nat)
    (hip : i < p.length) (hiq : i < q.length)
    (hne : p[i]? ≠ q[i]?) : startswith (p ++ x) q = false := by
  by_contra h
  rw [Bool.not_eq_false, startswith_iff] at h
  obtain ⟨t, ht⟩ := h
  apply hne
  have h2 : (p ++ x)[i]? = (q ++ t)[i]? := by rw [ht]
  rwa [List.getElem?_append, List.getElem?_append, if_pos hip, if_pos hiq] at h2

/-- C3, counterexample.  The claim requires is_valid to return false on a
bare leader with an empty id segment, but is_valid_spotify_uri accepts the
bare text spotify:track: (it is a startswith test only, qr/scanner.py
line 95), so the claimed equivalence fails at this input. -/
theorem C3_empty_id_counterexample :
    is_valid_spotify_uri (trackPre ++ []) = true ∧ ¬ ([] : Str) ≠ [] := by
  exact ⟨by decide, by simp⟩

/-- C3, amended: is_valid_spotify_uri accepts exactly the strings that
consist of one of the three literal leaders followed by an arbitrary,
possibly empty, id segment.  (The claim required the id to be non-empty;
the code does not check the id at all.) -/
theorem C3_is_valid_iff_spotify_leader (s : Str) :
    is_valid_spotify_uri s = true ↔
      (∃ id, s = playlistPre ++ id) ∨ (∃ id, s = albumPre ++ id) ∨
        (∃ id, s = trackPre ++ id) := by
  simp [is_valid_spotify_uri, Bool.or_eq_true, startswith_iff, or_assoc]

/-- C1, counterexample.  After a scan of albumA at time 0 with cooldown 3,
the different valid code trackX decoded at time 1 (within the cooldown) is
NOT dispatched and the state is NOT updated: the cooldown guard of
MusicButler.run (core/butler.py line 363) is checked before the
different-code comparison, so a different code never pre-empts the
cooldown as the claim requires. -/
theorem C1_different_code_within_cooldown_counterexample :
    scan_step stateAfterAlbumA (some trackX) 1 = (stateAfterAlbumA, none) := by
  norm_num [scan_step, stateAfterAlbumA]

/-- C1, amended: a decoded non-empty valid payload that differs from the
last-seen identifier is validated, dispatched and recorded only when the
elapsed time since the last scan timestamp exceeds the cooldown duration;
while the elapsed time is within the cooldown the step dispatches nothing
and leaves the scanner state unchanged, even for a different payload. -/
theorem C1_different_code_dispatch_gated_by_cooldown
    (st : ScannerState) (q : Str) (now : ℚ) (hq : q ≠ [])
    (hdiff : some q ≠ st.last_qr_code)
    (hvalid : is_valid_spotify_uri q = true) :
    (now - st.last_scan_time > st.scan_cooldown →
      scan_step st (some q) now =
        ({ st with last_qr_code := some q, last_scan_time := now },
          some (if st.print_mode then ScanAction.printSticker q
            else ScanAction.playContent q))) ∧
    (now - st.last_scan_time ≤ st.scan_cooldown →
      scan_step st (some q) now = (st, none)) := by
  constructor
  · intro hgt
    simp only [scan_step]
    rw [if_pos ⟨hq, hgt⟩, if_pos hdiff, if_pos hvalid]
  · intro hle
    simp only [scan_step]
    rw [if_neg (fun hc => absurd hc.2 (not_lt.mpr hle))]

/-- C1, witness: instantiated at the initial state with trackX at time 5
(cooldown elapsed) and at time 2 (within cooldown). -/
theorem C1_different_code_dispatch_gated_by_cooldown_witness :
    scan_step initialScannerState (some trackX) 5 =
      ({ initialScannerState with
          last_qr_code := some trackX,
          last_scan_time := 5 },
        some (ScanAction.playContent trackX)) ∧
    scan_step initialScannerState (some trackX) 2 = (initialScannerState, none) := by
  constructor
  · have h := (C1_different_code_dispatch_gated_by_cooldown initialScannerState
      trackX 5 (by decide) (by decide) (by decide)).1
      (by norm_num [initialScannerState, SCAN_COOLDOWN])
    simpa [initialScannerState] using h
  · exact (C1_different_code_dispatch_gated_by_cooldown initialScannerState
      trackX 2 (by decide) (by decide) (by decide)).2
      (by norm_num [initialScannerState, SCAN_COOLDOWN])

/-- C2, counterexample.  After a scan of trackX at time 0 with cooldown 3,
the same code decoded again at time 10 (well past the cooldown) is NOT
dispatched: the inner comparison of MusicButler.run (core/butler.py line
364) skips any payload equal to last_qr_code, so the claimed exactly-once
re-dispatch after the cooldown never happens. -/
theorem C2_same_code_after_cooldown_counterexample :
    scan_step stateAfterTrackX (some trackX) 10 = (stateAfterTrackX, none) := by
  norm_num [scan_step, stateAfterTrackX]

/-- C2, amended: when the decoded payload equals the last-seen identifier
the scan step never dispatches and leaves the scanner state unchanged,
regardless of how much time has elapsed.  (The claim held for the
within-cooldown half: no dispatch there; but after the cooldown the code
still dispatches nothing rather than exactly once.) -/
theorem C2_same_code_never_redispatched
    (st : ScannerState) (q : Str) (now : ℚ)
    (heq : some q = st.last_qr_code) :
    scan_step st (some q) now = (st, none) := by
  simp only [scan_step]
  by_cases hc : q ≠ [] ∧ now - st.last_scan_time > st.scan_cooldown
  · rw [if_pos hc, if_neg (not_not_intro heq)]
  · rw [if_neg hc]

/-- C2, witness: the same-code state at time 10, past the cooldown. -/
theorem C2_same_code_never_redispatched_witness :
    scan_step stateAfterTrackX (some trackX) 10 = (stateAfterTrackX, none) :=
  C2_same_code_never_redispatched stateAfterTrackX trackX 10 (by decide)

/-- C9, confirmed: a non-empty payload that is processed (cooldown passed
and different from the last-seen identifier) but fails URI validation
still records the payload and the scan time, and dispatches nothing
(core/butler.py lines 383 to 403). -/
theorem C9_invalid_code_updates_state_without_dispatch
    (st : ScannerState) (q : Str) (now : ℚ) (hq : q ≠ [])
    (hcool : now - st.last_scan_time > st.scan_cooldown)
    (hdiff : some q ≠ st.last_qr_code)
    (hinv : is_valid_spotify_uri q = false) :
    scan_step st (some q) now =
      ({ st with last_qr_code := some q, last_scan_time := now }, none) := by
  simp only [scan_step]
  rw [if_pos ⟨hq, hcool⟩, if_pos hdiff, if_neg (by simp [hinv])]

/-- C9, witness: a web URL decoded at time 5 from the initial state. -/
theorem C9_invalid_code_updates_state_without_dispatch_witness :
    scan_step initialScannerState
      (some "https://open.spotify.com/playlist/abc".toList) 5 =
      ({ initialScannerState with
          last_qr_code := some "https://open.spotify.com/playlist/abc".toList,
          last_scan_time := 5 },
        none) :=
  C9_invalid_code_updates_state_without_dispatch initialScannerState
    "https://open.spotify.com/playlist/abc".toList 5 (by decide)
    (by norm_num [initialScannerState, SCAN_COOLDOWN]) (by decide) (by decide)

/-- C4, confirmed: when live playback reports a truthy-free context URI but
a current track whose album URI is present, print_current_content targets
the album URI for printing and labels it with the distinct track-to-album
fallback source, which differs from the generic current-context source
(core/butler.py lines 242 to 254). -/
theorem C4_track_without_context_prints_album
    (cu ct : Option Str) (tr : Track) (cpc : Option Str) (au : Str)
    (hcu : truthy cu = false) (hau : tr.album_uri = some au)
    (hau2 : au ≠ []) :
    print_current_content
        (some { context_uri := cu, context_type := ct, track := some tr })
        cpc =
      PrintOutcome.printed au ContextSource.trackAlbumNoContext ∧
    ContextSource.trackAlbumNoContext ≠ ContextSource.currentContext ct := by
  have htr : truthy (some au) = true := by
    cases au with
    | nil => exact absurd rfl hau2
    | cons c cs => rfl
  refine ⟨?_, by simp⟩
  simp [print_current_content, hcu, hau, htr]

/-- C4, witness: a track playing with no context whose album is albumA. -/
theorem C4_track_without_context_prints_album_witness :
    print_current_content (some playbackTrackNoContext) none =
      PrintOutcome.printed albumA ContextSource.trackAlbumNoContext :=
  (C4_track_without_context_prints_album none none trackWithAlbumA
    none albumA (by decide) rfl (by decide)).1

/-- C5, confirmed: when live playback reports a truthy context URI that is
neither a playlist nor an album (for example an artist context),
print_current_content fails with the unsupported-context outcome, handing
nothing to the Sticker Printer and ignoring the remembered Playback
Context (core/butler.py lines 256 to 260 return before the fallback at
line 263). -/
theorem C5_unsupported_context_fails_without_print
    (pi : PlaybackInfo) (cpc : Option Str)
    (hcu : truthy pi.context_uri = true)
    (hns : starts_playlist_or_album (pi.context_uri.getD []) = false) :
    print_current_content (some pi) cpc =
      PrintOutcome.unsupportedContext pi.context_type ∧
    printerTarget (print_current_content (some pi) cpc) = none := by
  have h1 : print_current_content (some pi) cpc =
      PrintOutcome.unsupportedContext pi.context_type := by
    simp [print_current_content, hcu, hns]
  exact ⟨h1, by rw [h1]; rfl⟩

/-- C5, witness: an artist context with a remembered album context that
must not be used. -/
theorem C5_unsupported_context_fails_without_print_witness :
    print_current_content (some playbackArtistContext) (some albumA) =
      PrintOutcome.unsupportedContext (some "artist".toList) :=
  (C5_unsupported_context_fails_without_print playbackArtistContext
    (some albumA) (by decide) (by decide)).1

/-- C6, confirmed: in Play mode, when no active playback device resolves,
play_content returns False without issuing the play call and leaves the
Playback Context unchanged; and whenever the play call succeeds, the
Playback Context becomes the played URI with is_playing set to True
(core/butler.py lines 174 to 194, spotify/client.py lines 174 to 188). -/
theorem C6_play_requires_device_and_updates_context
    (st : PlaybackState) (uri : Str) (devices : Option (List Device))
    (play_ok : Bool) :
    (truthy (get_active_device devices) = false →
      play_content st uri (get_active_device devices) play_ok =
        { state := st, success := false, play_called := false }) ∧
    (truthy (get_active_device devices) = true → play_ok = true →
      play_content st uri (get_active_device devices) play_ok =
        { state :=
            { current_playback_context := some uri, is_playing := true },
          success := true, play_called := true }) := by
  constructor
  · intro h
    simp [play_content, h]
  · intro h hp
    simp [play_content, h, hp]

/-- C6, witness: an empty device list makes the play fail without a play
call; a single active device with a successful play call updates the
Playback Context to the played URI. -/
theorem C6_play_requires_device_and_updates_context_witness :
    play_content initialPlaybackState trackX (get_active_device (some [])) true =
      { state := initialPlaybackState, success := false,
        play_called := false } ∧
    play_content initialPlaybackState albumA
        (get_active_device (some oneActiveDevice)) true =
      { state :=
          { current_playback_context := some albumA, is_playing := true },
        success := true, play_called := true } :=
  ⟨(C6_play_requires_device_and_updates_context initialPlaybackState trackX
      (some []) true).1 (by decide),
    (C6_play_requires_device_and_updates_context initialPlaybackState albumA
      (some oneActiveDevice) true).2 (by decide) rfl⟩

/-- C8, counterexample.  A playlist whose resolved name is literally the
word Playlist still gets the subtitle (Playlist): the empty-subtitle case
of print_sticker (core/butler.py lines 300 to 302) requires the lookup to
have failed (name Unknown with type unknown), not the title to be the word
Playlist, so the claimed exception does not hold at this input. -/
theorem C8_playlist_named_playlist_counterexample :
    print_sticker (playlistPre ++ "P".toList)
      (some ("Playlist".toList, "Owner".toList)) =
      (playlistPre ++ "P".toList, "Playlist".toList, "(Playlist)".toList) := by
  decide

/-- C8, amended: the render call derives (title, subtitle) as follows.  A
playlist identifier yields the resolved name with subtitle (Playlist);
when the playlist lookup fails, the title becomes the word Playlist and
the subtitle is empty (this is the only empty-subtitle playlist case).
Album and track identifiers yield the resolved name with the resolved
artist as subtitle, or the title Unknown with an empty subtitle when the
lookup fails. -/
theorem C8_sticker_title_subtitle_rules (id n a o : Str) :
    print_sticker (trackPre ++ id) (some (n, a)) = (trackPre ++ id, n, a) ∧
    print_sticker (trackPre ++ id) none =
      (trackPre ++ id, "Unknown".toList, []) ∧
    print_sticker (albumPre ++ id) (some (n, a)) = (albumPre ++ id, n, a) ∧
    print_sticker (albumPre ++ id) none =
      (albumPre ++ id, "Unknown".toList, []) ∧
    print_sticker (playlistPre ++ id) (some (n, o)) =
      (playlistPre ++ id, n, "(Playlist)".toList) ∧
    print_sticker (playlistPre ++ id) none =
      (playlistPre ++ id, "Playlist".toList, []) := by
  have htp : startswith (trackPre ++ id) playlistPre = false :=
    startswith_append_ne _ _ _ 8 (by decide) (by decide) (by decide)
  have hta : startswith (trackPre ++ id) albumPre = false :=
    startswith_append_ne _ _ _ 8 (by decide) (by decide) (by decide)
  have htt : startswith (trackPre ++ id) trackPre = true :=
    (startswith_iff _ _).mpr ⟨id, rfl⟩
  have hap : startswith (albumPre ++ id) playlistPre = false :=
    startswith_append_ne _ _ _ 8 (by decide) (by decide) (by decide)
  have haa : startswith (albumPre ++ id) albumPre = true :=
    (startswith_iff _ _).mpr ⟨id, rfl⟩
  have hpp : startswith (playlistPre ++ id) playlistPre = true :=
    (startswith_iff _ _).mpr ⟨id, rfl⟩
  have hty1 : ("track".toList : Str) ≠ "playlist".toList := by decide
  have hty2 : ("album".toList : Str) ≠ "playlist".toList := by decide
  have hty3 : ("unknown".toList : Str) ≠ "playlist".toList := by decide
  have hty4 : ("playlist".toList : Str) ≠ "unknown".toList := by decide
  refine ⟨?_, ?_, ?_, ?_, ?_, ?_⟩ <;>
    simp [print_sticker, get_content_info, derive_title_subtitle, unknown_info,
      htp, hta, htt, hap, haa, hpp, hty1, hty2, hty3, hty4]

/-- A press edge beyond the double-press window remembers the press time
and fires nothing (hardware/encoder.py lines 122 to 124). -/
theorem button_step_press_slow (st : EncoderButtonState) (t : ℚ)
    (hb : st.last_button_state = false)
    (ht : ¬ t - st.last_press_time < DOUBLE_PRESS_TIMEOUT) :
    button_step st true t =
      ({ last_button_state := true, last_press_time := t }, none) := by
  rw [button_step, if_pos (by simp [hb]), if_neg ht]

/-- A press edge within the double-press window fires the double-press
callback and clears the remembered press time (hardware/encoder.py lines
117 to 121). -/
theorem button_step_press_fast (st : EncoderButtonState) (t : ℚ)
    (hb : st.last_button_state = false)
    (ht : t - st.last_press_time < DOUBLE_PRESS_TIMEOUT) :
    button_step st true t =
      ({ last_button_state := true, last_press_time := 0 },
        some ButtonEvent.double) := by
  rw [button_step, if_pos (by simp [hb]), if_pos ht]

/-- A release edge before the double-press window has elapsed fires
nothing (hardware/encoder.py lines 126 to 135). -/
theorem button_step_release_short (st : EncoderButtonState) (t : ℚ)
    (hb : st.last_button_state = true)
    (ht : ¬ (t - st.last_press_time ≥ DOUBLE_PRESS_TIMEOUT ∧
      st.last_press_time > 0)) :
    button_step st false t =
      ({ last_button_state := false, last_press_time := st.last_press_time },
        none) := by
  rw [button_step, if_neg (by simp), if_pos (by simp [hb]), if_neg ht]

/-- A release edge with a remembered press at least the double-press
window in the past fires the single-press callback (hardware/encoder.py
lines 126 to 135). -/
theorem button_step_release_long (st : EncoderButtonState) (t : ℚ)
    (hb : st.last_button_state = true)
    (ht : t - st.last_press_time ≥ DOUBLE_PRESS_TIMEOUT)
    (hp : st.last_press_time > 0) :
    button_step st false t =
      ({ last_button_state := false, last_press_time := 0 },
        some ButtonEvent.single) := by
  rw [button_step, if_neg (by simp), if_pos (by simp [hb]), if_pos ⟨ht, hp⟩]

/-- C7, counterexample.  Two short taps (press and quick release) more
than DOUBLE_PRESS_TIMEOUT apart fire NO callback at all: the single-press
callback only fires on a release whose press is at least
DOUBLE_PRESS_TIMEOUT old (hardware/encoder.py line 130), so a quick tap
never produces a single press and the claimed two single-press callbacks
do not happen. -/
theorem C7_two_separated_taps_counterexample :
    (button_run initialButtonState
      [(true, 1), (false, 11/10), (true, 2), (false, 21/10)]).2 = [] := by
  have s1 : button_step initialButtonState true 1 =
      ({ last_button_state := true, last_press_time := 1 }, none) :=
    button_step_press_slow _ _ rfl
      (by norm_num [initialButtonState, DOUBLE_PRESS_TIMEOUT])
  have s2 : button_step { last_button_state := true, last_press_time := 1 }
      false (11/10) =
      ({ last_button_state := false, last_press_time := 1 }, none) :=
    button_step_release_short _ _ rfl
      (by norm_num [DOUBLE_PRESS_TIMEOUT])
  have s3 : button_step { last_button_state := false, last_press_time := 1 }
      true 2 =
      ({ last_button_state := true, last_press_time := 2 }, none) :=
    button_step_press_slow _ _ rfl (by norm_num [DOUBLE_PRESS_TIMEOUT])
  have s4 : button_step { last_button_state := true, last_press_time := 2 }
      false (21/10) =
      ({ last_button_state := false, last_press_time := 2 }, none) :=
    button_step_release_short _ _ rfl
      (by norm_num [DOUBLE_PRESS_TIMEOUT])
  simp [button_run, s1, s2, s3, s4]

/-- C7, amended: two press edges separated by less than
DOUBLE_PRESS_TIMEOUT fire the double-press callback exactly once and no
single-press callback.  Two presses separated by more than the timeout
fire two independent single-press callbacks provided each press is held
for at least DOUBLE_PRESS_TIMEOUT before its release; a quick tap fires
nothing. -/
theorem C7_double_and_single_press_rules (t1 t2 t3 t4 : ℚ)
    (h1 : DOUBLE_PRESS_TIMEOUT ≤ t1) (h12 : t1 ≤ t2) (h23 : t2 ≤ t3)
    (h34 : t3 ≤ t4) :
    (t3 - t1 < DOUBLE_PRESS_TIMEOUT →
      (button_run initialButtonState
        [(true, t1), (false, t2), (true, t3)]).2 = [ButtonEvent.double]) ∧
    (DOUBLE_PRESS_TIMEOUT ≤ t2 - t1 → DOUBLE_PRESS_TIMEOUT ≤ t4 - t3 →
      (button_run initialButtonState
        [(true, t1), (false, t2), (true, t3), (false, t4)]).2 =
        [ButtonEvent.single, ButtonEvent.single]) := by
  have hD : DOUBLE_PRESS_TIMEOUT = 1 / 2 := rfl
  have s1 : button_step initialButtonState true t1 =
      ({ last_button_state := true, last_press_time := t1 }, none) :=
    button_step_press_slow _ _ rfl
      (by simp only [initialButtonState]; intro hc; linarith)
  constructor
  · intro hd
    have s2 : button_step { last_button_state := true, last_press_time := t1 }
        false t2 =
        ({ last_button_state := false, last_press_time := t1 }, none) :=
      button_step_release_short _ _ rfl (by
        simp only [not_and, not_lt]
        intro hc
        linarith)
    have s3 : button_step { last_button_state := false, last_press_time := t1 }
        true t3 =
        ({ last_button_state := true, last_press_time := 0 },
          some ButtonEvent.double) :=
      button_step_press_fast _ _ rfl (by simpa using hd)
    simp [button_run, s1, s2, s3]
  · intro hs1 hs2
    have s2 : button_step { last_button_state := true, last_press_time := t1 }
        false t2 =
        ({ last_button_state := false, last_press_time := 0 },
          some ButtonEvent.single) :=
      button_step_release_long _ _ rfl (by simpa using hs1) (by linarith)
    have s3 : button_step { last_button_state := false, last_press_time := 0 }
        true t3 =
        ({ last_button_state := true, last_press_time := t3 }, none) :=
      button_step_press_slow _ _ rfl (by simp only []; intro hc; linarith)
    have s4 : button_step { last_button_state := true, last_press_time := t3 }
        false t4 =
        ({ last_button_state := false, last_press_time := 0 },
          some ButtonEvent.single) :=
      button_step_release_long _ _ rfl (by simpa using hs2) (by linarith)
    simp [button_run, s1, s2, s3, s4]

/-- C7, witness: a double press at times 1 and 13/10 after a release at
11/10, and two held presses at times 1 and 2 released at 3/2 and 5/2. -/
theorem C7_double_and_single_press_rules_witness :
    (button_run initialButtonState
      [(true, 1), (false, 11/10), (true, 13/10)]).2 = [ButtonEvent.double] ∧
    (button_run initialButtonState
      [(true, 1), (false, 3/2), (true, 2), (false, 5/2)]).2 =
      [ButtonEvent.single, ButtonEvent.single] :=
  ⟨(C7_double_and_single_press_rules 1 (11/10) (13/10) (13/10)
      (by norm_num [DOUBLE_PRESS_TIMEOUT]) (by norm_num) (by norm_num)
      (by norm_num)).1 (by norm_num [DOUBLE_PRESS_TIMEOUT]),
    (C7_double_and_single_press_rules 1 (3/2) 2 (5/2)
      (by norm_num [DOUBLE_PRESS_TIMEOUT]) (by norm_num) (by norm_num)
      (by norm_num)).2 (by norm_num [DOUBLE_PRESS_TIMEOUT])
      (by norm_num [DOUBLE_PRESS_TIMEOUT])⟩

/-- Every single volume operation keeps the stored volume inside [0, 100],
assuming it starts there. -/
theorem apply_volume_op_range (v : Int) (op : VolumeOp)
    (h0 : 0 ≤ v) (h1 : v ≤ 100) :
    0 ≤ apply_volume_op v op ∧ apply_volume_op v op ≤ 100 := by
  cases op with
  | setVolume w =>
    exact ⟨le_max_left 0 _, max_le (by norm_num) (min_le_left _ _)⟩
  | encoderRotate pc =>
    simp only [apply_volume_op]
    split
    · exact ⟨le_max_left 0 _, max_le (by norm_num) (min_le_left _ _)⟩
    · exact ⟨h0, h1⟩
  | keyVolumeUp =>
    exact ⟨le_max_left 0 _, max_le (by norm_num) (min_le_left _ _)⟩
  | keyVolumeDown =>
    exact ⟨le_max_left 0 _, max_le (by norm_num) (min_le_left _ _)⟩

/-- Folding volume operations from a volume inside [0, 100] stays inside
[0, 100]. -/
theorem run_volume_ops_range (ops : List VolumeOp) :
    ∀ v : Int, 0 ≤ v → v ≤ 100 →
      0 ≤ run_volume_ops v ops ∧ run_volume_ops v ops ≤ 100 := by
  induction ops with
  | nil => intro v h0 h1; exact ⟨h0, h1⟩
  | cons op rest ih =>
    intro v h0 h1
    have hop := apply_volume_op_range v op h0 h1
    simpa [run_volume_ops, List.foldl] using ih _ hop.1 hop.2

/-- C10, confirmed: starting from the clamped default volume, every
sequence of volume operations (set_volume calls, encoder rotations with
arbitrary deltas, and the plus and minus key handlers) leaves the stored
current volume inside [0, 100]. -/
theorem C10_volume_stays_in_range (ops : List VolumeOp) :
    0 ≤ run_volume_ops initial_volume ops ∧
      run_volume_ops initial_volume ops ≤ 100 :=
  run_volume_ops_range ops initial_volume
    (by norm_num [initial_volume, DEFAULT_VOLUME])
    (by norm_num [initial_volume, DEFAULT_VOLUME])
